import Mathlib

/-!
Shallow embedding of the netlify-chat repository: the chat relay
(`src/pages/api/chat.ts`), model/provider resolution (`src/lib/models.ts`),
agent construction (`src/lib/agents.ts`) and the threads endpoint
(`netlify/functions/threads.ts`), together with theorems about the
streaming-frame protocol, validation, provider inference and thread
metadata handling.

JavaScript strings are Lean `String`s, `undefined`-able fields are
`Option`s, JS falsiness of a string value (`undefined` or `""`) is made
explicit, and thrown exceptions are `Except`/`Option` results.
-/

namespace NetlifyChat

/-- Boolean test that `needle` occurs as a contiguous infix of the character
list; embeds JavaScript `String.prototype.includes`. -/
def hasInfixAux (needle : List Char) : List Char → Bool
  | [] => needle.isEmpty
  | c :: rest => needle.isPrefixOf (c :: rest) || hasInfixAux needle rest

/-- Embeds JavaScript `haystack.includes(needle)`. -/
def strIncludes (haystack needle : String) : Bool :=
  hasInfixAux needle.data haystack.data

/-- Embeds JavaScript `s.startsWith(pre)` (and Lean `String.startsWith`),
phrased over the underlying character lists so it evaluates in the kernel. -/
def strStartsWith (s pre : String) : Bool :=
  pre.data.isPrefixOf s.data

/-- JavaScript `x || d` for a string-or-undefined `x`: the default is taken
when `x` is `undefined` or the empty string (both falsy). -/
def jsFalsyOr (x : Option String) (d : String) : String :=
  match x with
  | none => d
  | some s => if s.isEmpty then d else s

/-- JavaScript truthiness filter for a string-or-undefined value: `none` when
the value is `undefined` or `""`. -/
def jsTruthy (x : Option String) : Option String :=
  match x with
  | none => none
  | some s => if s.isEmpty then none else some s

/-- JavaScript `!x` for a string-or-undefined `x`. -/
def jsFalsyStr (x : Option String) : Bool :=
  match x with
  | none => true
  | some s => s.isEmpty

/-- JSON values, used for message `content` and thread `metadata` values. -/
inductive JsonVal where
  | null : JsonVal
  | bool (b : Bool) : JsonVal
  | num (n : Int) : JsonVal
  | str (s : String) : JsonVal
  | arr (xs : List JsonVal) : JsonVal
  | obj (fields : List (String × JsonVal)) : JsonVal

mutual

/-- Modelled from the spec: `JSON.stringify` (an external runtime function)
— "objects/structured content are serialized to a string representation".
Numbers are modelled as integers; string escaping is not modelled. -/
def JsonVal.stringify : JsonVal → String
  | .null => "null"
  | .bool b => cond b "true" "false"
  | .num n => toString n
  | .str s => "\"" ++ s ++ "\""
  | .arr xs => "[" ++ JsonVal.stringifyArr xs ++ "]"
  | .obj fs => "\x7b" ++ JsonVal.stringifyObj fs ++ "\x7d"

/-- Comma-separated serialization of a JSON array's elements. -/
def JsonVal.stringifyArr : List JsonVal → String
  | [] => ""
  | [x] => JsonVal.stringify x
  | x :: xs => JsonVal.stringify x ++ "," ++ JsonVal.stringifyArr xs

/-- Comma-separated serialization of a JSON object's fields. -/
def JsonVal.stringifyObj : List (String × JsonVal) → String
  | [] => ""
  | [(k, v)] => "\"" ++ k ++ "\":" ++ JsonVal.stringify v
  | (k, v) :: fs => "\"" ++ k ++ "\":" ++ JsonVal.stringify v ++ "," ++ JsonVal.stringifyObj fs

end

/-- Association-list lookup with JavaScript object semantics (first match;
the construction below keeps keys unique). -/
def mlookup : List (String × JsonVal) → String → Option JsonVal
  | [], _ => none
  | (k, v) :: rest, key => if k == key then some v else mlookup rest key

/-- Removal of every binding of key `k` from an association list. -/
def removeKey (k : String) : List (String × JsonVal) → List (String × JsonVal)
  | [] => []
  | kv :: rest => if kv.1 = k then removeKey k rest else kv :: removeKey k rest

/-- JavaScript object spread-and-set `\x7b...m, k: v\x7d`: every other key of `m`
is preserved and `k` is bound to `v`. -/
def objSet (m : List (String × JsonVal)) (k : String) (v : JsonVal) :
    List (String × JsonVal) :=
  removeKey k m ++ [(k, v)]

/-- The three provider families of `src/lib/models.ts`. -/
inductive Provider where
  | openai
  | anthropic
  | google
deriving DecidableEq, Repr

/-- Per-provider entry of the parsed `AI_GATEWAY` configuration. -/
structure ProviderGatewayCfg where
  token_env_var : Option String := none
  url_env_var : Option String := none
deriving Repr

/-- Parsed `AI_GATEWAY` configuration (`interface GatewayConfig`). -/
structure GatewayConfig where
  providers : List (String × ProviderGatewayCfg) := []
deriving Repr

/-- Process-wide environment: `process.env` as an association list, plus the
result of parsing the `AI_GATEWAY` variable (`getGatewayConfig`), which is
`none` when the variable is unset or unparsable. -/
structure Env where
  vars : List (String × String) := []
  gateway : Option GatewayConfig := none

/-- Embeds `getRawEnv`: read a variable from `process.env`. -/
def getRawEnv (env : Env) (key : String) : Option String :=
  match env.vars.find? (fun kv => kv.1 == key) with
  | none => none
  | some kv => some kv.2

/-- JSON key under which a provider family appears in `AI_GATEWAY`. -/
def providerKeyName : Provider → String
  | .openai => "openai"
  | .anthropic => "anthropic"
  | .google => "google"

/-- Embeds `getDefaultTokenKey`. -/
def getDefaultTokenKey : Provider → String
  | .openai => "OPENAI_API_KEY"
  | .anthropic => "ANTHROPIC_API_KEY"
  | .google => "GEMINI_API_KEY"

/-- Embeds `getDefaultUrlKey`. -/
def getDefaultUrlKey : Provider → String
  | .openai => "OPENAI_BASE_URL"
  | .anthropic => "ANTHROPIC_BASE_URL"
  | .google => "GOOGLE_GEMINI_BASE_URL"

/-- Which field of the gateway config is requested. -/
inductive GatewayField where
  | token
  | url
deriving DecidableEq

/-- Lookup of a provider's entry in the parsed gateway config. -/
def gatewayProviderCfg (env : Env) (p : Provider) : Option ProviderGatewayCfg :=
  match env.gateway with
  | none => none
  | some gw =>
    match gw.providers.find? (fun kv => kv.1 == providerKeyName p) with
    | none => none
    | some kv => some kv.2

/-- Embeds `getGatewayEnvKey`: the gateway-config override, falling back to
the standard Netlify variable name (`||` is JS-falsy). -/
def getGatewayEnvKey (env : Env) (p : Provider) (field : GatewayField) : String :=
  let providerConfig := gatewayProviderCfg env p
  match field with
  | .token => jsFalsyOr (providerConfig.bind (fun c => c.token_env_var)) (getDefaultTokenKey p)
  | .url => jsFalsyOr (providerConfig.bind (fun c => c.url_env_var)) (getDefaultUrlKey p)

/-- A constructed provider client (the result of `createOpenAI` /
`createAnthropic` / `createGoogleGenerativeAI`, external constructors whose
observable configuration is the family, base URL and API key). -/
structure ProviderClient where
  family : Provider
  baseURL : Option String
  apiKey : String

/-- Embeds `getOpenAIProvider` (the lazy process-wide cache is modelled as
construction per call; construction is idempotent). -/
def getOpenAIProvider (env : Env) : Except String ProviderClient :=
  let tokenKey := getGatewayEnvKey env .openai .token
  match jsTruthy (getRawEnv env tokenKey) with
  | none => .error ("OpenAI API key not found in Netlify AI Gateway. Expected " ++ tokenKey ++
      " to be set. Ensure you have deployed to production and are running via \"netlify dev\".")
  | some apiKey =>
    let urlKey := getGatewayEnvKey env .openai .url
    .ok { family := .openai, baseURL := getRawEnv env urlKey, apiKey := apiKey }

/-- Embeds `getAnthropicProvider`. -/
def getAnthropicProvider (env : Env) : Except String ProviderClient :=
  let tokenKey := getGatewayEnvKey env .anthropic .token
  match jsTruthy (getRawEnv env tokenKey) with
  | none => .error ("Anthropic API key not found in Netlify AI Gateway. Expected " ++ tokenKey ++
      " to be set. Ensure you have deployed to production and are running via \"netlify dev\".")
  | some apiKey =>
    let urlKey := getGatewayEnvKey env .anthropic .url
    .ok { family := .anthropic, baseURL := getRawEnv env urlKey, apiKey := apiKey }

/-- Embeds `getGoogleProvider`. -/
def getGoogleProvider (env : Env) : Except String ProviderClient :=
  let tokenKey := getGatewayEnvKey env .google .token
  match jsTruthy (getRawEnv env tokenKey) with
  | none => .error ("Google/Gemini API key not found in Netlify AI Gateway. Expected " ++ tokenKey ++
      " to be set. Ensure you have deployed to production and are running via \"netlify dev\".")
  | some apiKey =>
    let urlKey := getGatewayEnvKey env .google .url
    .ok { family := .google, baseURL := getRawEnv env urlKey, apiKey := apiKey }

/-- Embeds `getProviderByName`. -/
def getProviderByName (p : Provider) (env : Env) : Except String ProviderClient :=
  match p with
  | .openai => getOpenAIProvider env
  | .anthropic => getAnthropicProvider env
  | .google => getGoogleProvider env

/-- A provider client bound to a concrete model id (`providerInstance(modelId)`). -/
structure BoundModel where
  client : ProviderClient
  modelId : String

/-- Embeds `ModelConfig` (the display-only `description`/`contextWindow`
metadata from `model-metadata.ts` is out of scope per the spec and omitted). -/
structure ModelConfig where
  id : String
  name : String
  provider : Provider
  model : BoundModel

/-- Embeds `createModelConfig`; throws (`Except.error`) when the provider
client cannot be constructed for lack of a credential. -/
def createModelConfig (modelId : String) (provider : Provider)
    (displayName : Option String) (env : Env) : Except String ModelConfig :=
  match getProviderByName provider env with
  | .error e => .error e
  | .ok providerInstance =>
    .ok { id := modelId
          name := jsFalsyOr displayName modelId
          provider := provider
          model := { client := providerInstance, modelId := modelId } }

/-- Embeds the provider-inference block of `getModelById` (`src/lib/models.ts`
lines 224-235): `gpt-` / leading `o` / containing `codex` is OpenAI, `claude-`
is Anthropic, `gemini-` is Google, anything else is unresolvable. -/
def inferProvider (modelId : String) : Option Provider :=
  if strStartsWith modelId "gpt-" || strStartsWith modelId "o" || strIncludes modelId "codex" then
    some .openai
  else if strStartsWith modelId "claude-" then
    some .anthropic
  else if strStartsWith modelId "gemini-" then
    some .google
  else
    none

/-- Embeds `getModelById`: infer the provider when none is given, then build
the config, catching any construction error and returning `undefined`. -/
def getModelById (modelId : String) (provider : Option Provider) (env : Env) :
    Option ModelConfig :=
  match (match provider with | some p => some p | none => inferProvider modelId) with
  | none => none
  | some p =>
    match createModelConfig modelId p none env with
    | .error _ => none
    | .ok cfg => some cfg

/-- Embeds `DEFAULT_MODEL`. -/
def DEFAULT_MODEL : String := "gpt-4o-mini"

/-- Embeds `CreateAgentOptions` (`src/lib/agents.ts`). JS numbers that are
only carried, never computed with, are modelled as rationals. -/
structure CreateAgentOptions where
  modelId : Option String := none
  systemPrompt : Option String := none
  temperature : Option ℚ := none
  maxTokens : Option Nat := none

/-- The observable configuration of a constructed Mastra `Agent`. -/
structure Agent where
  name : String
  instructions : String
  model : BoundModel
  temperature : ℚ
  maxTokens : Nat

/-- Embeds `createChatAgent`: resolve the model config and construct the
agent, throwing `Unknown model: <id>` when `getModelById` returns
`undefined`. -/
def createChatAgent (options : CreateAgentOptions) (env : Env) : Except String Agent :=
  let modelId := options.modelId.getD DEFAULT_MODEL
  let systemPrompt := options.systemPrompt.getD
    "You are a helpful AI assistant. Be concise, accurate, and friendly. Provide clear and informative responses."
  let temperature := options.temperature.getD (7/10 : ℚ)
  let maxTokens := options.maxTokens.getD 4096
  match getModelById modelId none env with
  | none => .error ("Unknown model: " ++ modelId)
  | some modelConfig =>
    .ok { name := "chat-agent-" ++ modelId
          instructions := systemPrompt
          model := modelConfig.model
          temperature := temperature
          maxTokens := maxTokens }

/-- Embeds `ChatRequest` (`src/pages/api/chat.ts`). An absent
`newConversation` behaves as `false` (the destructuring default). -/
structure ChatRequest where
  message : Option String := none
  modelId : Option String := none
  threadId : Option String := none
  resourceId : Option String := none
  systemPrompt : Option String := none
  temperature : Option ℚ := none
  newConversation : Bool := false

/-- One newline-delimited JSON frame of the chat response stream. -/
inductive Frame where
  | chunk (content : String)
  | done (threadId : String) (modelId : String)
  | error (message : String)
deriving DecidableEq, Repr

/-- A frame is terminal when it is `done` or `error`. -/
def Frame.isTerminal : Frame → Bool
  | .chunk _ => false
  | .done _ _ => true
  | .error _ => true

/-- The behaviour of the upstream Mastra token stream for one request:
the fragments successfully yielded by `reader.read()`, in order, and
`failure = some e` when the next read throws `e` instead of completing. -/
structure Upstream where
  fragments : List String
  failure : Option String
deriving Repr

/-- Embeds the async pump of `src/pages/api/chat.ts` lines 87-123: one
`chunk` frame per fragment read, then a `done` frame on completion, or an
`error` frame (after the already-written chunks) when a read throws. -/
def streamFrames (threadId modelId : String) (up : Upstream) : List Frame :=
  up.fragments.map Frame.chunk ++
    (match up.failure with
     | none => [Frame.done threadId modelId]
     | some e => [Frame.error e])

/-- JSON bodies produced by the chat endpoint's non-stream responses. -/
inductive ChatBody where
  | err (message : String)
  | created (success : Bool) (threadId : String)
deriving DecidableEq, Repr

/-- The chat endpoint's response: a JSON response with a status, or a
framed stream body. -/
inductive ChatResp where
  | json (status : Nat) (body : ChatBody)
  | stream (frames : List Frame)
deriving DecidableEq, Repr

/-- The payload the handler passes to `memory.createThread`. -/
structure ThreadInit where
  resourceId : String
  metadata : List (String × JsonVal)

/-- Externally visible side effects of one chat request: the thread-creation
payload, whether an agent was constructed (provider resolution succeeded),
and whether the Session Store persisted the user / assistant turns.
Persistence is performed inside `agent.stream` by the external Mastra
memory integration; modelled from the spec (§4.1): the user turn is
persisted when streaming begins, the assistant turn when the token stream
completes successfully. -/
structure ChatEffects where
  createdThread : Option ThreadInit := none
  agentCreated : Bool := false
  userPersisted : Bool := false
  assistantPersisted : Bool := false

/-- Embeds the `POST` handler of `src/pages/api/chat.ts`. `now` is the
value of `new Date().toISOString()`, `newThreadId` the id the Session Store
would assign on `createThread`, and `up` the upstream token stream's
behaviour. Returns the response together with the request's side effects. -/
def chatPOST (req : ChatRequest) (env : Env) (now newThreadId : String)
    (up : Upstream) : ChatResp × ChatEffects :=
  let modelId := req.modelId.getD "gpt-4o-mini"
  let resourceId := req.resourceId.getD "default-user"
  if req.newConversation then
    (ChatResp.json 200 (ChatBody.created true newThreadId),
     { createdThread := some
         { resourceId := resourceId
           metadata := [("modelId", JsonVal.str modelId), ("createdAt", JsonVal.str now)] } })
  else if jsFalsyStr req.message then
    (ChatResp.json 400 (ChatBody.err "Message is required"), {})
  else if jsFalsyStr req.threadId then
    (ChatResp.json 400 (ChatBody.err "Thread ID is required"), {})
  else
    match createChatAgent
        { modelId := some modelId
          systemPrompt := req.systemPrompt
          temperature := req.temperature } env with
    | .error e => (ChatResp.json 500 (ChatBody.err e), {})
    | .ok _agent =>
      (ChatResp.stream (streamFrames (req.threadId.getD "") modelId up),
       { agentCreated := true
         userPersisted := true
         assistantPersisted := up.failure.isNone })

/-- A Thread record as stored by the Session Store. Timestamps are naturals
so that `updatedAt` ordering is an order on ℕ. -/
structure ThreadRec where
  id : String
  resourceId : String
  title : Option String
  metadata : List (String × JsonVal)
  createdAt : Nat
  updatedAt : Nat

/-- One stored message; `content` may be structured (non-string). -/
structure MsgRec where
  role : String
  content : JsonVal

/-- The Session Store's observable state: threads, and messages tagged with
their thread id, kept in append (causal) order. -/
structure Store where
  threads : List ThreadRec
  messages : List (String × MsgRec)

/-- Ordering relation "a is listed before b": most recently updated first. -/
def threadAfter (a b : ThreadRec) : Prop := b.updatedAt ≤ a.updatedAt

instance : DecidableRel threadAfter := fun a b => Nat.decLe b.updatedAt a.updatedAt

instance : IsTotal ThreadRec threadAfter := ⟨fun a b => Nat.le_total b.updatedAt a.updatedAt⟩

instance : IsTrans ThreadRec threadAfter := ⟨fun _ _ _ hab hbc => Nat.le_trans hbc hab⟩

/-- Modelled from the spec: the Session Store operation
`memory.getThreadsByResourceId(\x7bresourceId, sortDirection: 'DESC',
orderBy: 'updatedAt'\x7d)` (an external `@mastra/memory` call) — all threads of
the owner, ordered by `updatedAt` descending. -/
def getThreadsByResourceId (store : Store) (resourceId : String) : List ThreadRec :=
  List.insertionSort threadAfter
    (store.threads.filter (fun t => t.resourceId == resourceId))

/-- Modelled from the spec: `memory.getThreadById` (external) — the stored
thread with the given id, if any. -/
def getThreadById (store : Store) (threadId : String) : Option ThreadRec :=
  store.threads.find? (fun t => t.id == threadId)

/-- Modelled from the spec: `memory.query(\x7bthreadId, resourceId\x7d)`
(external) — the thread's messages in causal (append) order. -/
def queryMessages (store : Store) (threadId : String) : List MsgRec :=
  (store.messages.filter (fun m => m.1 == threadId)).map (fun m => m.2)

/-- A thread as serialized by the GET list branch of
`netlify/functions/threads.ts` (the same six fields, re-projected). -/
structure ThreadOut where
  id : String
  resourceId : String
  title : Option String
  metadata : List (String × JsonVal)
  createdAt : Nat
  updatedAt : Nat

/-- Embeds the list branch of the threads `GET` handler
(`netlify/functions/threads.ts` lines 38-60). -/
def listThreadsGET (store : Store) (resourceId : String) : List ThreadOut :=
  (getThreadsByResourceId store resourceId).map (fun thread =>
    { id := thread.id
      resourceId := thread.resourceId
      title := thread.title
      metadata := thread.metadata
      createdAt := thread.createdAt
      updatedAt := thread.updatedAt })

/-- A message as serialized by the single-thread GET branch: content
normalized to a plain string. -/
structure MsgOut where
  role : String
  content : String
deriving DecidableEq, Repr

/-- Embeds the content ternary of `threads.ts` line 28:
`typeof msg.content === 'string' ? msg.content : JSON.stringify(msg.content)`. -/
def normalizeContent : JsonVal → String
  | .str s => s
  | v => JsonVal.stringify v

/-- Embeds the single-thread branch of the threads `GET` handler
(`netlify/functions/threads.ts` lines 16-36): the thread record plus its
messages with normalized content. -/
def getThreadGET (store : Store) (threadId : String) :
    Option ThreadRec × List MsgOut :=
  (getThreadById store threadId,
   (queryMessages store threadId).map (fun msg =>
     { role := msg.role, content := normalizeContent msg.content }))

/-- Embeds the metadata expression of the threads `POST` handler
(`netlify/functions/threads.ts` lines 83-86):
`\x7b...metadata, createdAt: new Date().toISOString()\x7d` with an absent
`metadata` spreading to nothing. -/
def createThreadMetadata (metadata : Option (List (String × JsonVal)))
    (now : String) : List (String × JsonVal) :=
  objSet (metadata.getD []) "createdAt" (JsonVal.str now)

/-- The payload the threads `POST` handler passes to `memory.createThread`;
the Session Store (spec §3: metadata is an open mapping) stores it
verbatim, so the created thread's metadata is this payload's metadata. -/
structure CreateThreadInput where
  resourceId : String
  title : Option String
  metadata : List (String × JsonVal)

/-- Embeds the `POST` branch of the threads handler
(`netlify/functions/threads.ts` lines 76-103): the `createThread` payload
built from the request body. -/
def threadsPOST (title : Option String) (metadata : Option (List (String × JsonVal)))
    (resourceId : String) (now : String) : CreateThreadInput :=
  { resourceId := resourceId
    title := title
    metadata := createThreadMetadata metadata now }

/-- The spec's "recognized prefix pattern" for the OpenAI family
(`gpt-` prefix, leading `o`, or containing `codex`). -/
def matchesOpenAI (id : String) : Bool :=
  strStartsWith id "gpt-" || strStartsWith id "o" || strIncludes id "codex"

/-- The spec's recognized pattern for the Anthropic family (`claude-`). -/
def matchesAnthropic (id : String) : Bool := strStartsWith id "claude-"

/-- The spec's recognized pattern for the Google family (`gemini-`). -/
def matchesGoogle (id : String) : Bool := strStartsWith id "gemini-"

/-- Whether a model identifier matches a given family's pattern. -/
def matchesProvider : Provider → String → Bool
  | .openai, id => matchesOpenAI id
  | .anthropic, id => matchesAnthropic id
  | .google, id => matchesGoogle id

/-- An environment carrying only an OpenAI key, for concrete runs. -/
def envOpenAI : Env := { vars := [("OPENAI_API_KEY", "test-key")], gateway := none }

/-- An empty environment: no provider credentials, no gateway config. -/
def envNoKeys : Env := { vars := [], gateway := none }

/-- A well-formed submit-turn request for the default model. -/
def reqValid : ChatRequest := { message := some "hello", threadId := some "t1" }

/-- A submit-turn request naming a model id no provider pattern matches. -/
def reqUnknown : ChatRequest :=
  { message := some "hi", threadId := some "t1", modelId := some "foo-model" }

/-- A request with `newConversation` set and no message or thread id. -/
def reqNewConv : ChatRequest := { newConversation := true }

/-- An upstream stream yielding two fragments then completing. -/
def upOk : Upstream := { fragments := ["Hel", "lo"], failure := none }

/-- An upstream stream yielding one fragment then throwing. -/
def upErr : Upstream := { fragments := ["x"], failure := some "boom" }

/-- Example threads of one owner with increasing `updatedAt`. -/
def exThreadA : ThreadRec :=
  { id := "a", resourceId := "u", title := none, metadata := [], createdAt := 1, updatedAt := 1 }

/-- Second example thread, updated later than `exThreadA`. -/
def exThreadB : ThreadRec :=
  { id := "b", resourceId := "u", title := none, metadata := [], createdAt := 2, updatedAt := 2 }

/-- Third example thread, updated last. -/
def exThreadC : ThreadRec :=
  { id := "c", resourceId := "u", title := none, metadata := [], createdAt := 3, updatedAt := 3 }

/-- A store holding the three example threads in creation order. -/
def exStore : Store := { threads := [exThreadA, exThreadB, exThreadC], messages := [] }

/-- Projection of a stored thread to the GET list serialization. -/
def toThreadOut (t : ThreadRec) : ThreadOut :=
  { id := t.id, resourceId := t.resourceId, title := t.title, metadata := t.metadata,
    createdAt := t.createdAt, updatedAt := t.updatedAt }

/-- A store with one thread holding a string message and a structured one. -/
def exMsgStore : Store :=
  { threads := []
    messages := [("t", { role := "user", content := JsonVal.str "hello" }),
                 ("t", { role := "assistant", content := JsonVal.obj [("a", JsonVal.num 1)] })] }

/-- The text fragment carried by a `chunk` frame, if any. -/
def chunkContent : Frame → Option String
  | .chunk c => some c
  | _ => none

/-- Example caller-supplied metadata carrying its own `createdAt`. -/
def exMeta : List (String × JsonVal) :=
  [("createdAt", JsonVal.str "old"), ("x", JsonVal.str "keep")]

/-!  Theorems.  -/

/-- Whenever the chat handler answers with a stream body, that body is
exactly the frames produced by the pump for the request's thread and model
ids. -/
theorem chatPOST_stream_frames (req : ChatRequest) (env : Env) (now ntid : String)
    (up : Upstream) (frames : List Frame)
    (h : (chatPOST req env now ntid up).1 = ChatResp.stream frames) :
    frames = streamFrames (req.threadId.getD "") (req.modelId.getD "gpt-4o-mini") up := by
  unfold chatPOST at h
  split at h
  · simp at h
  · split at h
    · simp at h
    · split at h
      · simp at h
      · dsimp only at h
        split at h
        · simp at h
        · simp only [ChatResp.stream.injEq] at h
          exact h.symm

/-- The pump's output always splits as a list of non-terminal chunk frames
followed by one terminal frame. -/
theorem streamFrames_split (threadId modelId : String) (up : Upstream) :
    ∃ body tfr, streamFrames threadId modelId up = body ++ [tfr] ∧
      tfr.isTerminal = true ∧ ∀ f ∈ body, f.isTerminal = false := by
  refine ⟨up.fragments.map Frame.chunk, ?_, ?_, ?_, ?_⟩
  case refine_1 =>
    exact match up.failure with
    | none => Frame.done threadId modelId
    | some e => Frame.error e
  · unfold streamFrames
    cases up.failure <;> rfl
  · cases up.failure <;> rfl
  · intro f hf
    obtain ⟨s, _, rfl⟩ := List.mem_map.mp hf
    rfl

/-- C1: every submit-turn request that reaches the streaming phase (the
handler answers with a stream body) produces a stream that ends in exactly
one terminal frame — `done` or `error` — with every earlier frame a
non-terminal chunk and no frame after the terminal one. -/
theorem chat_stream_exactly_one_terminal (req : ChatRequest) (env : Env)
    (now ntid : String) (up : Upstream) (frames : List Frame)
    (h : (chatPOST req env now ntid up).1 = ChatResp.stream frames) :
    ∃ body tfr, frames = body ++ [tfr] ∧
      tfr.isTerminal = true ∧ ∀ f ∈ body, f.isTerminal = false := by
  rw [chatPOST_stream_frames req env now ntid up frames h]
  exact streamFrames_split _ _ up

/-- C1 witness: a concrete valid request against a configured environment
streams and the theorem applies to it. -/
theorem chat_stream_exactly_one_terminal_witness :
    ∃ body tfr,
      [Frame.chunk "Hel", Frame.chunk "lo", Frame.done "t1" "gpt-4o-mini"] = body ++ [tfr] ∧
      tfr.isTerminal = true ∧ ∀ f ∈ body, f.isTerminal = false :=
  chat_stream_exactly_one_terminal reqValid envOpenAI "2024-01-01T00:00:00.000Z" "nt" upOk
    [Frame.chunk "Hel", Frame.chunk "lo", Frame.done "t1" "gpt-4o-mini"] rfl

/-- Mapping `chunk` over fragments and filtering the contents back is the
identity, for any trailing frames. -/
theorem chunkContent_map (l : List String) (rest : List Frame) :
    (l.map Frame.chunk ++ rest).filterMap chunkContent = l ++ rest.filterMap chunkContent := by
  induction l with
  | nil => rfl
  | cons a t ih => simp only [List.map_cons, List.cons_append, List.filterMap_cons, chunkContent, ih]

/-- C6: for every upstream stream consumed by the relay — succeeding or
failing — the stream body forwards each upstream fragment as exactly one
chunk frame, in exactly the upstream emission order with none dropped or
reordered (the chunk contents filter back to the fragment list, and the
body is the fragments' chunk frames followed by a single trailing frame);
on successful upstream completion that trailing frame is the one `done`
frame carrying the request's thread and model ids. -/
theorem chat_stream_forwards_fragments (req : ChatRequest) (env : Env)
    (now ntid : String) (up : Upstream) (frames : List Frame)
    (h : (chatPOST req env now ntid up).1 = ChatResp.stream frames) :
    frames.filterMap chunkContent = up.fragments ∧
    (∃ tfr, frames = up.fragments.map Frame.chunk ++ [tfr]) ∧
    (up.failure = none →
      frames = up.fragments.map Frame.chunk ++
        [Frame.done (req.threadId.getD "") (req.modelId.getD "gpt-4o-mini")]) := by
  have hf := chatPOST_stream_frames req env now ntid up frames h
  rw [streamFrames] at hf
  refine ⟨?_, ?_, ?_⟩
  · rw [hf, chunkContent_map]
    cases up.failure <;> simp [chunkContent]
  · cases hfail : up.failure with
    | none =>
      rw [hfail] at hf
      exact ⟨Frame.done (req.threadId.getD "") (req.modelId.getD "gpt-4o-mini"), hf⟩
    | some e =>
      rw [hfail] at hf
      exact ⟨Frame.error e, hf⟩
  · intro hs
    rw [hs] at hf
    exact hf

/-- C6 witness: a failing concrete run still forwards its fragment as a
chunk frame, and a successful concrete run forwards both fragments then
the `done` frame for the request's thread and model. -/
theorem chat_stream_forwards_fragments_witness :
    [Frame.chunk "x", Frame.error "boom"].filterMap chunkContent = upErr.fragments ∧
    [Frame.chunk "Hel", Frame.chunk "lo", Frame.done "t1" "gpt-4o-mini"] =
      upOk.fragments.map Frame.chunk ++
        [Frame.done (reqValid.threadId.getD "") (reqValid.modelId.getD "gpt-4o-mini")] :=
  ⟨(chat_stream_forwards_fragments reqValid envOpenAI "2024-01-01T00:00:00.000Z" "nt" upErr
      [Frame.chunk "x", Frame.error "boom"] rfl).1,
   (chat_stream_forwards_fragments reqValid envOpenAI "2024-01-01T00:00:00.000Z" "nt" upOk
      [Frame.chunk "Hel", Frame.chunk "lo", Frame.done "t1" "gpt-4o-mini"] rfl).2.2 rfl⟩

/-- A missing (or empty) message short-circuits the handler with the 400
validation response and no side effects. -/
theorem chatPOST_message_missing (req : ChatRequest) (env : Env) (now ntid : String)
    (up : Upstream) (hn : req.newConversation = false) (hm : jsFalsyStr req.message = true) :
    chatPOST req env now ntid up =
      (ChatResp.json 400 (ChatBody.err "Message is required"),
       { createdThread := none, agentCreated := false,
         userPersisted := false, assistantPersisted := false }) := by
  unfold chatPOST
  rw [hn, hm]
  rfl

/-- A missing (or empty) thread id short-circuits the handler with the 400
validation response and no side effects. -/
theorem chatPOST_thread_missing (req : ChatRequest) (env : Env) (now ntid : String)
    (up : Upstream) (hn : req.newConversation = false)
    (hm : jsFalsyStr req.message = false) (ht : jsFalsyStr req.threadId = true) :
    chatPOST req env now ntid up =
      (ChatResp.json 400 (ChatBody.err "Thread ID is required"),
       { createdThread := none, agentCreated := false,
         userPersisted := false, assistantPersisted := false }) := by
  unfold chatPOST
  rw [hn, hm, ht]
  rfl

/-- C4: a POST /chat request without `newConversation` whose `message` or
`threadId` field is absent gets an HTTP 400 JSON error response with no
side effects — no thread creation, no provider invocation, no persisted
message — and the response is never a stream, so zero frames are emitted. -/
theorem chat_validation_400_no_frames (req : ChatRequest) (env : Env)
    (now ntid : String) (up : Upstream) (hn : req.newConversation = false)
    (hmiss : req.message = none ∨ req.threadId = none) :
    (∃ m, chatPOST req env now ntid up =
       (ChatResp.json 400 (ChatBody.err m),
        { createdThread := none, agentCreated := false,
          userPersisted := false, assistantPersisted := false })) ∧
    ∀ frames, (chatPOST req env now ntid up).1 ≠ ChatResp.stream frames := by
  have hres : ∃ m, chatPOST req env now ntid up =
      (ChatResp.json 400 (ChatBody.err m),
       { createdThread := none, agentCreated := false,
         userPersisted := false, assistantPersisted := false }) := by
    rcases hmiss with hm | ht
    · exact ⟨"Message is required",
        chatPOST_message_missing req env now ntid up hn (by rw [hm]; rfl)⟩
    · by_cases hmf : jsFalsyStr req.message = true
      · exact ⟨"Message is required", chatPOST_message_missing req env now ntid up hn hmf⟩
      · refine ⟨"Thread ID is required",
          chatPOST_thread_missing req env now ntid up hn ?_ (by rw [ht]; rfl)⟩
        exact Bool.not_eq_true _ ▸ Bool.eq_false_iff.mpr hmf
  obtain ⟨m, he⟩ := hres
  refine ⟨⟨m, he⟩, fun frames hc => ?_⟩
  rw [he] at hc
  exact ChatResp.noConfusion hc

/-- C4 witness: the concrete request lacking a thread id is rejected with a
400 error and its response is not a stream. -/
theorem chat_validation_400_no_frames_witness :
    (∃ m, chatPOST { message := some "hello" } envOpenAI "2024-01-01T00:00:00.000Z" "nt" upOk =
       (ChatResp.json 400 (ChatBody.err m),
        { createdThread := none, agentCreated := false,
          userPersisted := false, assistantPersisted := false })) ∧
    ∀ frames,
      (chatPOST { message := some "hello" } envOpenAI "2024-01-01T00:00:00.000Z" "nt" upOk).1 ≠
        ChatResp.stream frames :=
  chat_validation_400_no_frames { message := some "hello" } envOpenAI
    "2024-01-01T00:00:00.000Z" "nt" upOk rfl (Or.inr rfl)

/-- C9: a POST /chat request with `newConversation` set creates a thread
whose metadata records the (defaulted) model id and the creation timestamp,
answers HTTP 200 with the success body and new thread id, and does nothing
else: no validation of `message`/`threadId`, no agent construction, no
persisted turn, and never a stream frame — even when a message is present. -/
theorem new_conversation_creates_thread (req : ChatRequest) (env : Env)
    (now ntid : String) (up : Upstream) (h : req.newConversation = true) :
    chatPOST req env now ntid up =
      (ChatResp.json 200 (ChatBody.created true ntid),
       { createdThread := some
           { resourceId := req.resourceId.getD "default-user"
             metadata := [("modelId", JsonVal.str (req.modelId.getD "gpt-4o-mini")),
                          ("createdAt", JsonVal.str now)] }
         agentCreated := false, userPersisted := false, assistantPersisted := false }) ∧
    ∀ frames, (chatPOST req env now ntid up).1 ≠ ChatResp.stream frames := by
  have he : chatPOST req env now ntid up =
      (ChatResp.json 200 (ChatBody.created true ntid),
       { createdThread := some
           { resourceId := req.resourceId.getD "default-user"
             metadata := [("modelId", JsonVal.str (req.modelId.getD "gpt-4o-mini")),
                          ("createdAt", JsonVal.str now)] }
         agentCreated := false, userPersisted := false, assistantPersisted := false }) := by
    unfold chatPOST
    rw [h]
    rfl
  refine ⟨he, fun frames hc => ?_⟩
  rw [he] at hc
  exact ChatResp.noConfusion hc

/-- C9 witness: a concrete new-conversation request that also carries a
message still only creates the thread and returns the success body. -/
theorem new_conversation_creates_thread_witness :
    chatPOST { message := some "hello", newConversation := true } envNoKeys
        "2024-01-01T00:00:00.000Z" "nt" upOk =
      (ChatResp.json 200 (ChatBody.created true "nt"),
       { createdThread := some
           { resourceId := "default-user"
             metadata := [("modelId", JsonVal.str "gpt-4o-mini"),
                          ("createdAt", JsonVal.str "2024-01-01T00:00:00.000Z")] }
         agentCreated := false, userPersisted := false, assistantPersisted := false }) ∧
    ∀ frames,
      (chatPOST { message := some "hello", newConversation := true } envNoKeys
          "2024-01-01T00:00:00.000Z" "nt" upOk).1 ≠ ChatResp.stream frames :=
  new_conversation_creates_thread { message := some "hello", newConversation := true }
    envNoKeys "2024-01-01T00:00:00.000Z" "nt" upOk rfl

/-- A list is a boolean prefix of itself followed by anything. -/
theorem isPrefixOf_append_self (k b : List Char) : k.isPrefixOf (k ++ b) = true := by
  induction k with
  | nil => cases b <;> rfl
  | cons c rest ih => simp [List.isPrefixOf, ih]

/-- A needle occurs in any haystack that embeds it between two parts. -/
theorem hasInfixAux_append (k b : List Char) :
    ∀ a : List Char, hasInfixAux k (a ++ (k ++ b)) = true := by
  intro a
  induction a with
  | nil =>
    simp only [List.nil_append]
    cases hkb : k ++ b with
    | nil =>
      have hk : k = [] := by cases k with | nil => rfl | cons x xs => simp at hkb
      subst hk
      rfl
    | cons c rest =>
      unfold hasInfixAux
      rw [← hkb, isPrefixOf_append_self]
      rfl
  | cons c a ih =>
    simp only [List.cons_append]
    unfold hasInfixAux
    rw [ih, Bool.or_true]

/-- `strIncludes` finds the middle part of a three-part concatenation. -/
theorem strIncludes_append_mid (a k b : String) : strIncludes (a ++ k ++ b) k = true := by
  unfold strIncludes
  have hd : (a ++ k ++ b).data = a.data ++ (k.data ++ b.data) := by
    simp [String.data_append]
  rw [hd]
  exact hasInfixAux_append k.data b.data a.data

/-- When no provider pattern matches the (defaulted) model id,
`createChatAgent` throws `Unknown model: <id>`. -/
theorem createChatAgent_unknown (opts : CreateAgentOptions) (env : Env)
    (hu : inferProvider (opts.modelId.getD DEFAULT_MODEL) = none) :
    createChatAgent opts env = .error ("Unknown model: " ++ opts.modelId.getD DEFAULT_MODEL) := by
  unfold createChatAgent getModelById
  dsimp only
  rw [hu]

/-- When the provider's token variable is unset or empty, the provider
constructor throws, and its message names the missing variable. -/
theorem getProvider_missing_key (env : Env) (p : Provider)
    (hk : jsTruthy (getRawEnv env (getGatewayEnvKey env p .token)) = none) :
    ∃ emsg, getProviderByName p env = .error emsg ∧
      strIncludes emsg (getGatewayEnvKey env p .token) = true := by
  cases p with
  | openai =>
    have he : getOpenAIProvider env = .error
        ("OpenAI API key not found in Netlify AI Gateway. Expected " ++
          getGatewayEnvKey env .openai .token ++
          " to be set. Ensure you have deployed to production and are running via \"netlify dev\".") := by
      unfold getOpenAIProvider
      dsimp only
      rw [hk]
    exact ⟨_, he, strIncludes_append_mid _ _ _⟩
  | anthropic =>
    have he : getAnthropicProvider env = .error
        ("Anthropic API key not found in Netlify AI Gateway. Expected " ++
          getGatewayEnvKey env .anthropic .token ++
          " to be set. Ensure you have deployed to production and are running via \"netlify dev\".") := by
      unfold getAnthropicProvider
      dsimp only
      rw [hk]
    exact ⟨_, he, strIncludes_append_mid _ _ _⟩
  | google =>
    have he : getGoogleProvider env = .error
        ("Google/Gemini API key not found in Netlify AI Gateway. Expected " ++
          getGatewayEnvKey env .google .token ++
          " to be set. Ensure you have deployed to production and are running via \"netlify dev\".") := by
      unfold getGoogleProvider
      dsimp only
      rw [hk]
    exact ⟨_, he, strIncludes_append_mid _ _ _⟩

/-- `getModelById` swallows a provider-construction error into `none`. -/
theorem getModelById_provider_error (modelId : String) (env : Env) (p : Provider)
    (hp : inferProvider modelId = some p) (e : String)
    (he : getProviderByName p env = .error e) :
    getModelById modelId none env = none := by
  unfold getModelById
  dsimp only
  rw [hp]
  dsimp only
  unfold createModelConfig
  rw [he]

/-- When `createChatAgent` throws, the chat handler answers HTTP 500 with
the thrown message and performs no side effects. -/
theorem chatPOST_agent_error (req : ChatRequest) (env : Env) (now ntid : String)
    (up : Upstream) (e : String)
    (hn : req.newConversation = false) (hm : jsFalsyStr req.message = false)
    (ht : jsFalsyStr req.threadId = false)
    (ha : createChatAgent
        { modelId := some (req.modelId.getD "gpt-4o-mini")
          systemPrompt := req.systemPrompt
          temperature := req.temperature } env = .error e) :
    chatPOST req env now ntid up =
      (ChatResp.json 500 (ChatBody.err e),
       { createdThread := none, agentCreated := false,
         userPersisted := false, assistantPersisted := false }) := by
  unfold chatPOST
  rw [hn, hm, ht]
  dsimp only
  rw [ha]
  rfl

/-- A provider-construction failure surfaces from `createChatAgent` as the
generic `Unknown model: <id>` message, not as the configuration message. -/
theorem createChatAgent_config_error (opts : CreateAgentOptions) (env : Env) (p : Provider)
    (hp : inferProvider (opts.modelId.getD DEFAULT_MODEL) = some p) (e : String)
    (he : getProviderByName p env = .error e) :
    createChatAgent opts env = .error ("Unknown model: " ++ opts.modelId.getD DEFAULT_MODEL) := by
  unfold createChatAgent
  dsimp only
  rw [getModelById_provider_error _ env p hp e he]

/-- C2 counterexample: with every provider credential present, a request
naming the unrecognized model `foo-model` fails with the unknown-model
error, and the user message is NOT persisted (the claim asserts it still
is): model resolution happens before `agent.stream`, the only call that
persists the user turn. -/
theorem unknown_model_user_not_persisted_cex :
    (chatPOST reqUnknown envOpenAI "2024-01-01T00:00:00.000Z" "nt" upOk).1 =
      ChatResp.json 500 (ChatBody.err "Unknown model: foo-model") ∧
    (chatPOST reqUnknown envOpenAI "2024-01-01T00:00:00.000Z" "nt" upOk).2.userPersisted = false ∧
    (chatPOST reqUnknown envOpenAI "2024-01-01T00:00:00.000Z" "nt" upOk).2.assistantPersisted = false :=
  ⟨rfl, rfl, rfl⟩

/-- C2 (amended): a validated submit-turn request whose model id matches no
provider pattern fails with the `Unknown model` error (HTTP 500 JSON, no
stream), persists no assistant message, and also persists no user message,
because model resolution precedes the streaming call that persists the
user turn. -/
theorem unknown_model_no_persistence (req : ChatRequest) (env : Env) (now ntid : String)
    (up : Upstream) (hn : req.newConversation = false) (hm : jsFalsyStr req.message = false)
    (ht : jsFalsyStr req.threadId = false)
    (hu : inferProvider (req.modelId.getD "gpt-4o-mini") = none) :
    chatPOST req env now ntid up =
      (ChatResp.json 500 (ChatBody.err ("Unknown model: " ++ req.modelId.getD "gpt-4o-mini")),
       { createdThread := none, agentCreated := false,
         userPersisted := false, assistantPersisted := false }) :=
  chatPOST_agent_error req env now ntid up _ hn hm ht (createChatAgent_unknown _ env hu)

/-- C2 witness: the concrete unrecognized-model request is rejected with
the unknown-model error and no persisted messages. -/
theorem unknown_model_no_persistence_witness :
    chatPOST reqUnknown envOpenAI "2024-01-01T00:00:00.000Z" "nt" upOk =
      (ChatResp.json 500 (ChatBody.err ("Unknown model: " ++ reqUnknown.modelId.getD "gpt-4o-mini")),
       { createdThread := none, agentCreated := false,
         userPersisted := false, assistantPersisted := false }) :=
  unknown_model_no_persistence reqUnknown envOpenAI "2024-01-01T00:00:00.000Z" "nt" upOk
    rfl rfl rfl rfl

/-- C3 counterexample: with the OpenAI key absent from the environment and
the default model requested, the error surfaced to the chat caller is
`Unknown model: gpt-4o-mini`, which does not include the missing variable
name `OPENAI_API_KEY` — the configuration message is swallowed by
`getModelById`. -/
theorem missing_key_error_lacks_key_name_cex :
    getGatewayEnvKey envNoKeys Provider.openai GatewayField.token = "OPENAI_API_KEY" ∧
    getRawEnv envNoKeys "OPENAI_API_KEY" = none ∧
    (chatPOST reqValid envNoKeys "2024-01-01T00:00:00.000Z" "nt" upOk).1 =
      ChatResp.json 500 (ChatBody.err "Unknown model: gpt-4o-mini") ∧
    strIncludes "Unknown model: gpt-4o-mini" "OPENAI_API_KEY" = false :=
  ⟨rfl, rfl, rfl, rfl⟩

/-- C3 (amended): when the required token variable for the resolved
provider family is missing, the provider constructor's thrown message does
include the missing variable name, but `getModelById` catches it and the
caller of the chat operation instead receives `Unknown model: <id>` (HTTP
500), which does not carry the variable name. -/
theorem missing_key_error_swallowed (req : ChatRequest) (env : Env) (now ntid : String)
    (up : Upstream) (p : Provider)
    (hn : req.newConversation = false) (hm : jsFalsyStr req.message = false)
    (ht : jsFalsyStr req.threadId = false)
    (hp : inferProvider (req.modelId.getD "gpt-4o-mini") = some p)
    (hk : jsTruthy (getRawEnv env (getGatewayEnvKey env p .token)) = none) :
    (∃ emsg, getProviderByName p env = .error emsg ∧
       strIncludes emsg (getGatewayEnvKey env p .token) = true) ∧
    chatPOST req env now ntid up =
      (ChatResp.json 500 (ChatBody.err ("Unknown model: " ++ req.modelId.getD "gpt-4o-mini")),
       { createdThread := none, agentCreated := false,
         userPersisted := false, assistantPersisted := false }) := by
  obtain ⟨emsg, he, hinc⟩ := getProvider_missing_key env p hk
  refine ⟨⟨emsg, he, hinc⟩, ?_⟩
  exact chatPOST_agent_error req env now ntid up _ hn hm ht
    (createChatAgent_config_error _ env p hp emsg he)

/-- C3 witness: the concrete credential-free environment with the default
model exhibits both halves — a configuration message naming the variable
inside the provider constructor, and the swallowed `Unknown model`
response outside. -/
theorem missing_key_error_swallowed_witness :
    (∃ emsg, getProviderByName Provider.openai envNoKeys = .error emsg ∧
       strIncludes emsg (getGatewayEnvKey envNoKeys Provider.openai GatewayField.token) = true) ∧
    chatPOST reqValid envNoKeys "2024-01-01T00:00:00.000Z" "nt" upOk =
      (ChatResp.json 500 (ChatBody.err ("Unknown model: " ++ reqValid.modelId.getD "gpt-4o-mini")),
       { createdThread := none, agentCreated := false,
         userPersisted := false, assistantPersisted := false }) :=
  missing_key_error_swallowed reqValid envNoKeys "2024-01-01T00:00:00.000Z" "nt" upOk
    Provider.openai rfl rfl rfl rfl rfl

/-- `inferProvider` is the prefix-pattern cascade over the three families. -/
theorem inferProvider_matches (id : String) :
    inferProvider id =
      (if matchesOpenAI id then some Provider.openai
       else if matchesAnthropic id then some Provider.anthropic
       else if matchesGoogle id then some Provider.google
       else none) := rfl

/-- C5: provider inference binds a model id only to a family whose
recognized pattern it matches; it fails (returns no provider) exactly when
no family's pattern matches; and when inference fails, `getModelById`
returns no binding whatever the environment — it never guesses. -/
theorem infer_provider_prefix_rules :
    ∀ (id : String) (env : Env) (p : Provider),
      (inferProvider id = some p → matchesProvider p id = true) ∧
      (inferProvider id = none ↔
        matchesOpenAI id = false ∧ matchesAnthropic id = false ∧ matchesGoogle id = false) ∧
      (inferProvider id = none → getModelById id none env = none) := by
  intro id env p
  refine ⟨?_, ?_, ?_⟩
  · intro h
    rw [inferProvider_matches] at h
    cases ho : matchesOpenAI id <;> cases ha : matchesAnthropic id <;> cases hg : matchesGoogle id <;>
      rw [ho, ha, hg] at h <;> simp at h <;> (try subst h) <;>
      simp_all [matchesProvider]
  · rw [inferProvider_matches]
    cases ho : matchesOpenAI id <;> cases ha : matchesAnthropic id <;> cases hg : matchesGoogle id <;>
      simp
  · intro h
    unfold getModelById
    dsimp only
    rw [h]

/-- C5 witness: a `claude-` id is bound to a family matching its pattern,
and an unmatched id resolves to no model even with credentials present. -/
theorem infer_provider_prefix_rules_witness :
    matchesProvider Provider.anthropic "claude-3-5-haiku-20241022" = true ∧
    getModelById "mistral-7b" none envOpenAI = none :=
  ⟨(infer_provider_prefix_rules "claude-3-5-haiku-20241022" envOpenAI Provider.anthropic).1 rfl,
   (infer_provider_prefix_rules "mistral-7b" envOpenAI Provider.anthropic).2.2 rfl⟩

/-- The list branch output is sorted most-recently-updated first. -/
theorem list_threads_sorted (store : Store) (rid : String) :
    List.Sorted (fun a b : ThreadOut => b.updatedAt ≤ a.updatedAt) (listThreadsGET store rid) :=
  (List.sorted_insertionSort threadAfter
    (store.threads.filter (fun t => t.resourceId == rid))).map _ (fun _ _ h => h)

/-- C7: listing threads for an owner returns exactly that owner's threads —
a permutation of the store's threads filtered to the owner — sorted by
`updatedAt` descending; in particular three threads updated at times
1 < 2 < 3 come back in the order 3, 2, 1. -/
theorem list_threads_sorted_desc :
    (∀ (store : Store) (rid : String),
       List.Sorted (fun a b : ThreadOut => b.updatedAt ≤ a.updatedAt) (listThreadsGET store rid) ∧
       (listThreadsGET store rid).Perm
         ((store.threads.filter (fun t => t.resourceId == rid)).map toThreadOut)) ∧
    listThreadsGET exStore "u" =
      [toThreadOut exThreadC, toThreadOut exThreadB, toThreadOut exThreadA] := by
  constructor
  · intro store rid
    constructor
    · exact list_threads_sorted store rid
    · exact (List.perm_insertionSort threadAfter
        (store.threads.filter (fun t => t.resourceId == rid))).map toThreadOut
  · rfl

/-- C8: fetching one thread returns its messages in append (causal) order —
the serialized list is the pointwise image of the store's causal message
list — where string content is returned unchanged and non-string content
is JSON-serialized. -/
theorem thread_messages_normalized :
    (∀ (store : Store) (threadId : String),
       (getThreadGET store threadId).2 =
         (queryMessages store threadId).map (fun msg =>
           { role := msg.role, content := normalizeContent msg.content })) ∧
    (∀ s, normalizeContent (JsonVal.str s) = s) ∧
    (∀ v : JsonVal, (∀ s, v ≠ JsonVal.str s) → normalizeContent v = JsonVal.stringify v) := by
  refine ⟨fun store threadId => rfl, fun s => rfl, fun v hv => ?_⟩
  cases v with
  | str s => exact absurd rfl (hv s)
  | null => rfl
  | bool b => rfl
  | num n => rfl
  | arr xs => rfl
  | obj fs => rfl

/-- C8 witness: a thread with a string message and a structured message
comes back with the string untouched and the object serialized, in order. -/
theorem thread_messages_normalized_witness :
    (getThreadGET exMsgStore "t").2 =
      [{ role := "user", content := "hello" },
       { role := "assistant", content := "\x7b\"a\":1\x7d" }] ∧
    normalizeContent (JsonVal.obj [("a", JsonVal.num 1)]) =
      JsonVal.stringify (JsonVal.obj [("a", JsonVal.num 1)]) := by
  refine ⟨?_, (thread_messages_normalized).2.2 (JsonVal.obj [("a", JsonVal.num 1)])
    (fun s h => JsonVal.noConfusion h)⟩
  rw [(thread_messages_normalized).1 exMsgStore "t"]
  rfl

/-- Setting a key makes it the looked-up binding. -/
theorem mlookup_objSet_self (m : List (String × JsonVal)) (k : String) (v : JsonVal) :
    mlookup (objSet m k v) k = some v := by
  unfold objSet
  induction m with
  | nil => simp [mlookup, removeKey]
  | cons kv rest ih =>
    obtain ⟨k1, v1⟩ := kv
    unfold removeKey
    by_cases h1 : k1 = k
    · rw [if_pos h1]
      exact ih
    · rw [if_neg h1, List.cons_append, mlookup]
      have hb : (k1 == k) = false := beq_eq_false_iff_ne.mpr h1
      rw [hb]
      simpa using ih

/-- Setting a key leaves every other key's binding unchanged. -/
theorem mlookup_objSet_ne (m : List (String × JsonVal)) (k : String) (v : JsonVal)
    (key : String) (hne : key ≠ k) :
    mlookup (objSet m k v) key = mlookup m key := by
  unfold objSet
  induction m with
  | nil =>
    have hb : (k == key) = false := beq_eq_false_iff_ne.mpr (Ne.symm hne)
    simp [removeKey, mlookup, hb]
  | cons kv rest ih =>
    obtain ⟨k1, v1⟩ := kv
    unfold removeKey
    by_cases h1 : k1 = k
    · rw [if_pos h1, ih, mlookup]
      have hb : (k1 == key) = false := by
        rw [h1]
        exact beq_eq_false_iff_ne.mpr (Ne.symm hne)
      rw [hb]
      rfl
    · rw [if_neg h1, List.cons_append, mlookup, mlookup]
      by_cases h2 : k1 = key
      · rw [beq_iff_eq.mpr h2]
        rfl
      · have hb : (k1 == key) = false := beq_eq_false_iff_ne.mpr h2
        rw [hb, ih]

/-- C10: the metadata of a thread created via POST /threads is the
caller-supplied mapping with `createdAt` bound to the server timestamp:
any caller-supplied `createdAt` is overwritten, every other key is
preserved unchanged, and no `modelId` key is added on this path. -/
theorem thread_post_metadata_override (title : Option String)
    (metadata : Option (List (String × JsonVal))) (resourceId now : String) :
    mlookup (threadsPOST title metadata resourceId now).metadata "createdAt" =
      some (JsonVal.str now) ∧
    (∀ k, k ≠ "createdAt" →
      mlookup (threadsPOST title metadata resourceId now).metadata k =
        mlookup (metadata.getD []) k) ∧
    (mlookup (metadata.getD []) "modelId" = none →
      mlookup (threadsPOST title metadata resourceId now).metadata "modelId" = none) := by
  refine ⟨?_, ?_, ?_⟩
  · exact mlookup_objSet_self (metadata.getD []) "createdAt" (JsonVal.str now)
  · intro k hk
    exact mlookup_objSet_ne (metadata.getD []) "createdAt" (JsonVal.str now) k hk
  · intro h
    show mlookup (objSet (metadata.getD []) "createdAt" (JsonVal.str now)) "modelId" = none
    rw [mlookup_objSet_ne (metadata.getD []) "createdAt" (JsonVal.str now) "modelId" (by decide)]
    exact h

/-- C10 witness: caller metadata with its own `createdAt` and another key
gets the server timestamp for `createdAt`, keeps the other key, and gains
no `modelId`. -/
theorem thread_post_metadata_override_witness :
    mlookup (threadsPOST none (some exMeta) "default-user"
        "2024-01-01T00:00:00.000Z").metadata "createdAt" =
      some (JsonVal.str "2024-01-01T00:00:00.000Z") ∧
    mlookup (threadsPOST none (some exMeta) "default-user"
        "2024-01-01T00:00:00.000Z").metadata "x" =
      mlookup ((some exMeta : Option (List (String × JsonVal))).getD []) "x" ∧
    mlookup (threadsPOST none (some exMeta) "default-user"
        "2024-01-01T00:00:00.000Z").metadata "modelId" = none :=
  ⟨(thread_post_metadata_override none (some exMeta) "default-user" "2024-01-01T00:00:00.000Z").1,
   (thread_post_metadata_override none (some exMeta) "default-user"
     "2024-01-01T00:00:00.000Z").2.1 "x" (by decide),
   (thread_post_metadata_override none (some exMeta) "default-user"
     "2024-01-01T00:00:00.000Z").2.2 rfl⟩

end NetlifyChat

